import Mathlib

/-!
Shallow embedding of the bulk spreadsheet import endpoints and the
OTP / registration endpoints of the `faithful_registration` app
(`src/faithful_registration/api/{mosque,household,faithful,imam,auth}.py`).

The persistence layer (`frappe.db.exists`, `doc.insert`) is modelled as
explicit state; backend insert failures, which the source catches row by
row, are supplied by an oracle `Nat → Option String` mapping a row index
to the error message its `insert` raises, `none` meaning success.
-/

namespace FaithfulReg

/-- A pandas cell as seen by `df.iterrows()` / `row.get(col)`:
an empty spreadsheet cell is the float `NaN`, a non-empty one is read
here as its string value (all claims concern string-typed columns). -/
inductive Cell where
  | na : Cell
  | str : String → Cell
deriving DecidableEq, Repr

/-- `pd.notna` on a cell: `NaN` is the only NA value. -/
def Cell.notna : Cell → Bool
  | .na => false
  | .str _ => true

/-- Python `str()` of a cell: `str(float("nan"))` is `"nan"`. -/
def Cell.pyStr : Cell → String
  | .na => "nan"
  | .str s => s

/-- Python truthiness of a cell: the float `NaN` is truthy,
a string is truthy iff non-empty. -/
def Cell.truthy : Cell → Bool
  | .na => true
  | .str s => s ≠ ""

/-- Python `str.strip()`: drop leading and trailing whitespace. -/
def pyStrip (s : String) : String :=
  ⟨((s.data.dropWhile Char.isWhitespace).reverse.dropWhile Char.isWhitespace).reverse⟩

/-- Python `str.lower()`. -/
def pyLower (s : String) : String :=
  ⟨s.data.map Char.toLower⟩

/-- One spreadsheet row: mapping from column name to cell value
(`row.to_dict()` in the source). -/
abbrev Row := List (String × Cell)

/-- `row.get(col)` / `payload.get(col)`: `none` models Python `None`
(column absent from the file). -/
def rowGet (r : Row) (c : String) : Option Cell := r.lookup c

/-- Python `str(x)` where `x` may be `None`. -/
def pyStrOpt : Option Cell → String
  | none => "None"
  | some c => c.pyStr

/-- Python truthiness of `row.get(col)`: `None` is falsy,
otherwise the cell's own truthiness. -/
def optTruthy : Option Cell → Bool
  | none => false
  | some c => c.truthy

/-- A parsed upload: `pd.read_excel` result, header columns plus data rows. -/
structure Df where
  cols : List String
  rows : List Row
deriving DecidableEq, Repr

/-- Per-row outcome, spec `ImportOutcome` (§3 of the spec): the three
branches of each per-row `try` block in the source. -/
inductive Outcome where
  | created : Outcome
  | duplicate : String → Outcome
  | failed : String → Outcome
deriving DecidableEq, Repr

def countCreated (os : List Outcome) : Nat :=
  os.countP fun o => match o with | .created => true | _ => false

def countDuplicates (os : List Outcome) : Nat :=
  os.countP fun o => match o with | .duplicate _ => true | _ => false

def countFailed (os : List Outcome) : Nat :=
  os.countP fun o => match o with | .failed _ => true | _ => false

/-! ## Mosque bulk import (`mosque.py`, `bulk_register_mosques`) -/

/-- A persisted Mosque document: the fields actually written by
`doc.set(col, value)` for the `pd.notna` columns (raw, unstripped values). -/
abbrev MosqueDoc := List (String × String)

structure MosqueState where
  mosques : List MosqueDoc
deriving DecidableEq, Repr

/-- `frappe.db.exists("Mosque", {field: val})`. -/
def mosqueExists (st : MosqueState) (field val : String) : Bool :=
  st.mosques.any fun d => d.lookup field == some val

/-- One entry of `failed_records` in `bulk_register_mosques`:
a name field and an error string, no row number. -/
structure MosqueFailedRec where
  mosque_name : Cell
  error : String
deriving DecidableEq, Repr

/-- The document built at lines 77-81 of `mosque.py`: every `pd.notna`
column of the row, raw value. -/
def mosqueDocOf (cols : List String) (row : Row) : MosqueDoc :=
  cols.filterMap fun c =>
    match rowGet row c with
    | some (.str s) => some (c, s)
    | _ => none

/-- The `email` local of line 46 of `mosque.py`:
`str(row.get("contact_email")).strip() if pd.notna(...) else None`. -/
def mosqueEmailOf (row : Row) : Option String :=
  match rowGet row "contact_email" with
  | some (.str s) => some (pyStrip s)
  | _ => none

/-- The `phone` local of line 47 of `mosque.py`. -/
def mosquePhoneOf (row : Row) : Option String :=
  match rowGet row "contact_phone" with
  | some (.str s) => some (pyStrip s)
  | _ => none

/-- The body of the `for i, row in df.iterrows()` loop of
`bulk_register_mosques` (lines 40-92): validation, three duplicate
checks, then creation; `ins` is the backend outcome of `doc.insert`. -/
def mosqueRowStep (cols : List String) (ins : Option String) (st : MosqueState)
    (row : Row) : Outcome × MosqueState × Option MosqueFailedRec :=
  if pyStrip (pyStrOpt (rowGet row "mosque_name")) = "" then
    (.failed "Mosque name is required.", st,
      some ⟨(rowGet row "mosque_name").getD (.str "Unknown"),
        "Mosque name is required."⟩)
  else if mosqueExists st "mosque_name"
      (pyStrip (pyStrOpt (rowGet row "mosque_name"))) then
    (.duplicate "Duplicate mosque name", st,
      some ⟨.str (pyStrip (pyStrOpt (rowGet row "mosque_name"))),
        "Duplicate mosque name"⟩)
  else if (match mosqueEmailOf row with
           | some e => e ≠ "" && mosqueExists st "contact_email" e
           | none => false) then
    (.duplicate ("Duplicate contact email: " ++ (mosqueEmailOf row).getD ""), st,
      some ⟨.str (pyStrip (pyStrOpt (rowGet row "mosque_name"))),
        "Duplicate contact email: " ++ (mosqueEmailOf row).getD ""⟩)
  else if (match mosquePhoneOf row with
           | some p => p ≠ "" && mosqueExists st "contact_phone" p
           | none => false) then
    (.duplicate ("Duplicate contact phone: " ++ (mosquePhoneOf row).getD ""), st,
      some ⟨.str (pyStrip (pyStrOpt (rowGet row "mosque_name"))),
        "Duplicate contact phone: " ++ (mosquePhoneOf row).getD ""⟩)
  else
    match ins with
    | none => (.created, ⟨st.mosques ++ [mosqueDocOf cols row]⟩, none)
    | some e =>
      (.failed e, st,
        some ⟨(rowGet row "mosque_name").getD (.str "Unknown"), e⟩)

/-- The whole per-row loop, threading the store; `k` is the current
0-based row index (the `i` of `df.iterrows()`). -/
def mosqueGo (cols : List String) (ins : Nat → Option String) (k : Nat)
    (st : MosqueState) : List Row → List Outcome × MosqueState × List MosqueFailedRec
  | [] => ([], st, [])
  | r :: rs =>
    let step := mosqueRowStep cols (ins k) st r
    let rest := mosqueGo cols ins (k + 1) step.2.1 rs
    (step.1 :: rest.1, rest.2.1, step.2.2.toList ++ rest.2.2)

structure MosqueSummary where
  total : Nat
  created : Nat
  duplicates : Nat
  failed : Nat
  failed_file_url : Option String
deriving DecidableEq, Repr

structure MosqueResult where
  summary : MosqueSummary
  outcomes : List Outcome
  state : MosqueState
  failed_records : List MosqueFailedRec
deriving DecidableEq, Repr

/-- `bulk_register_mosques`: call-level checks (file present, required
column in the header, lines 26-32), then the loop, then the failed-rows
report file (lines 94-110, the saved report's URL modelled as a fixed
reference). `Except.error` is the top-level `except` branch (HTTP 500). -/
def bulkRegisterMosques (file : Option Df) (ins : Nat → Option String)
    (st : MosqueState) : Except String MosqueResult :=
  match file with
  | none => .error "No file uploaded. Expecting an Excel file."
  | some df =>
    if "mosque_name" ∈ df.cols then
      let run := mosqueGo df.cols ins 0 st df.rows
      .ok { summary := { total := df.rows.length
                         created := countCreated run.1
                         duplicates := countDuplicates run.1
                         failed := countFailed run.1
                         failed_file_url :=
                           if run.2.2.isEmpty then none
                           else some "/private/files/failed_mosques.xlsx" }
            outcomes := run.1
            state := run.2.1
            failed_records := run.2.2 }
    else .error "Missing required column: 'mosque_name'"

/-! ## Household bulk import (`household.py`, `bulk_register_households`) -/

abbrev HouseholdDoc := List (String × String)

structure HouseholdState where
  households : List HouseholdDoc
deriving DecidableEq, Repr

/-- `frappe.db.exists("Household", {"household_name": val})`. -/
def householdExists (st : HouseholdState) (val : String) : Bool :=
  st.households.any fun d => d.lookup "household_name" == some val

/-- One entry of `failed_records` in `bulk_register_households`:
a name field and an error string, no row number. -/
structure HouseholdFailedRec where
  household_name : Cell
  error : String
deriving DecidableEq, Repr

/-- The document built at lines 47-50 of `household.py`. -/
def householdDocOf (cols : List String) (row : Row) : HouseholdDoc :=
  cols.filterMap fun c =>
    match rowGet row c with
    | some (.str s) => some (c, s)
    | _ => none

/-- The body of the `for _, row in df.iterrows()` loop of
`bulk_register_households` (lines 32-60): validation, one duplicate
check on `household_name`, then creation. -/
def householdRowStep (cols : List String) (ins : Option String)
    (st : HouseholdState) (row : Row) :
    Outcome × HouseholdState × Option HouseholdFailedRec :=
  if pyStrip (pyStrOpt (rowGet row "household_name")) = "" then
    (.failed "household_name is required.", st,
      some ⟨(rowGet row "household_name").getD (.str "Unknown"),
        "household_name is required."⟩)
  else if householdExists st (pyStrip (pyStrOpt (rowGet row "household_name"))) then
    (.duplicate "Duplicate household_name", st,
      some ⟨.str (pyStrip (pyStrOpt (rowGet row "household_name"))),
        "Duplicate household_name"⟩)
  else
    match ins with
    | none => (.created, ⟨st.households ++ [householdDocOf cols row]⟩, none)
    | some e =>
      (.failed e, st,
        some ⟨(rowGet row "household_name").getD (.str "Unknown"), e⟩)

def householdGo (cols : List String) (ins : Nat → Option String) (k : Nat)
    (st : HouseholdState) :
    List Row → List Outcome × HouseholdState × List HouseholdFailedRec
  | [] => ([], st, [])
  | r :: rs =>
    let step := householdRowStep cols (ins k) st r
    let rest := householdGo cols ins (k + 1) step.2.1 rs
    (step.1 :: rest.1, rest.2.1, step.2.2.toList ++ rest.2.2)

structure HouseholdResult where
  summary : MosqueSummary
  outcomes : List Outcome
  state : HouseholdState
  failed_records : List HouseholdFailedRec
deriving DecidableEq, Repr

/-- `bulk_register_households` (lines 12-112): same shape as the
mosque import, with `household_name` as the required column and
uniqueness key. -/
def bulkRegisterHouseholds (file : Option Df) (ins : Nat → Option String)
    (st : HouseholdState) : Except String HouseholdResult :=
  match file with
  | none => .error "No Excel file uploaded."
  | some df =>
    if "household_name" ∈ df.cols then
      let run := householdGo df.cols ins 0 st df.rows
      .ok { summary := { total := df.rows.length
                         created := countCreated run.1
                         duplicates := countDuplicates run.1
                         failed := countFailed run.1
                         failed_file_url :=
                           if run.2.2.isEmpty then none
                           else some "/private/files/failed_households.xlsx" }
            outcomes := run.1
            state := run.2.1
            failed_records := run.2.2 }
    else .error "Missing required column: 'household_name'."

/-! ## Faithful bulk import (`faithful.py`, `bulk_upload_faithfuls`) -/

structure FaithfulState where
  profiles : List Row
  users : List String
deriving DecidableEq, Repr

/-- One entry of `skipped_duplicates` (line 54 of `faithful.py`). -/
structure SkipRec where
  row : Nat
  email : String
  reason : String
deriving DecidableEq, Repr

/-- One entry of `failed_rows` (lines 82-87 of `faithful.py`). -/
structure FailRec where
  row : Nat
  email : Option Cell
  full_name : Option Cell
  error : String
deriving DecidableEq, Repr

/-- The body of the `for idx, row in df.iterrows()` loop of
`bulk_upload_faithfuls` (lines 41-87).  `pins` / `uins` are the backend
outcomes of the Faithful-Profile insert and of the User-account
creation (insert + role assignment); a `reset_password` failure is
swallowed by the inner `try` in the source, so it does not appear.
An `email` cell that is the float `NaN` passes the truthiness check and
then raises `AttributeError` at `email.strip()`; the per-row `except`
turns that into a failure. -/
def faithfulRowStep (pins uins : Option String) (st : FaithfulState)
    (idx : Nat) (row : Row) :
    Outcome × FaithfulState × Option SkipRec × Option FailRec :=
  if ¬ (optTruthy (rowGet row "email")) ∨ ¬ (optTruthy (rowGet row "full_name")) then
    (.failed "Missing email or full_name", st, none,
      some ⟨idx + 2, rowGet row "email", rowGet row "full_name",
        "Missing email or full_name"⟩)
  else
    match rowGet row "email" with
    | some (.str s) =>
      if st.users.contains (pyLower (pyStrip s)) then
        (.duplicate (pyLower (pyStrip s)), st,
          some ⟨idx + 2, pyLower (pyStrip s), "Duplicate user"⟩, none)
      else
        match pins with
        | some e =>
          (.failed e, st, none,
            some ⟨idx + 2, rowGet row "email", rowGet row "full_name", e⟩)
        | none =>
          match uins with
          | some e =>
            (.failed e, ⟨st.profiles ++ [row], st.users⟩, none,
              some ⟨idx + 2, rowGet row "email", rowGet row "full_name", e⟩)
          | none =>
            (.created, ⟨st.profiles ++ [row],
              st.users ++ [pyLower (pyStrip s)]⟩, none, none)
    | _ =>
      (.failed "float object has no attribute strip", st, none,
        some ⟨idx + 2, rowGet row "email", rowGet row "full_name",
          "float object has no attribute strip"⟩)

def faithfulGo (pins uins : Nat → Option String) (k : Nat) (st : FaithfulState) :
    List Row → List Outcome × FaithfulState × List SkipRec × List FailRec
  | [] => ([], st, [], [])
  | r :: rs =>
    let step := faithfulRowStep (pins k) (uins k) st k r
    let rest := faithfulGo pins uins (k + 1) step.2.1 rs
    (step.1 :: rest.1, rest.2.1, step.2.2.1.toList ++ rest.2.2.1,
      step.2.2.2.toList ++ rest.2.2.2)

structure FaithfulResult where
  total_uploaded : Nat
  created : Nat
  duplicates : Nat
  failed : Nat
  skipped_duplicates : List SkipRec
  failed_rows : List FailRec
  failed_file_url : Option String
  outcomes : List Outcome
  state : FaithfulState
deriving DecidableEq, Repr

/-- `bulk_upload_faithfuls` (lines 21-111): the only call-level check is
the presence of the file; `required_fields` is declared at line 39 but
never compared against `df.columns`.  At lines 89-93 a failed-rows
spreadsheet is written to an anonymous temporary file that is never
uploaded to storage, and `failed_file_url` (initialised `None` at
line 31) is never reassigned, so the returned reference is always
`none`. -/
def bulkUploadFaithfuls (file : Option Df) (pins uins : Nat → Option String)
    (st : FaithfulState) : Except String FaithfulResult :=
  match file with
  | none => .error "No file uploaded under 'file' key"
  | some df =>
    let run := faithfulGo pins uins 0 st df.rows
    .ok { total_uploaded := df.rows.length
          created := countCreated run.1
          duplicates := countDuplicates run.1
          failed := countFailed run.1
          skipped_duplicates := run.2.2.1
          failed_rows := run.2.2.2
          failed_file_url := none
          outcomes := run.1
          state := run.2.1 }

/-! ## Imam bulk import (`imam.py`, `bulk_upload_imams`) -/

structure ImamState where
  imams : List Row
deriving DecidableEq, Repr

/-- One entry of `errors` in `bulk_upload_imams` (line 342). -/
structure ImamErr where
  row : Nat
  error : String
deriving DecidableEq, Repr

/-- The loop body of `bulk_upload_imams` (lines 332-342): no field
validation and no duplicate check of any kind — the row data (minus the
`name` column) goes straight to `insert`, whose outcome `ins` decides
between `created` and `failed`.  There is no `duplicate` branch. -/
def imamRowStep (ins : Option String) (st : ImamState) (row : Row) :
    Outcome × ImamState × Option ImamErr :=
  let data := row.filter fun p => p.1 ≠ "name"
  match ins with
  | none => (.created, ⟨st.imams ++ [data]⟩, none)
  | some e => (.failed e, st, none)

def imamGo (ins : Nat → Option String) (k : Nat) (st : ImamState) :
    List Row → List Outcome × ImamState × List ImamErr
  | [] => ([], st, [])
  | r :: rs =>
    let step := imamRowStep (ins k) st r
    let err : List ImamErr :=
      match step.1 with
      | .failed e => [⟨k + 2, e⟩]
      | _ => []
    let rest := imamGo ins (k + 1) step.2.1 rs
    (step.1 :: rest.1, rest.2.1, err ++ rest.2.2)

structure ImamResult where
  total : Nat
  created : Nat
  failed : Nat
  errors : List ImamErr
  outcomes : List Outcome
  state : ImamState
deriving DecidableEq, Repr

/-- `bulk_upload_imams` (lines 322-350): its summary has only `total`,
`created` and `failed` counters; duplicates are not a category. -/
def bulkUploadImams (file : Option Df) (ins : Nat → Option String)
    (st : ImamState) : Except String ImamResult :=
  match file with
  | none => .error "No file uploaded under 'file'"
  | some df =>
    let run := imamGo ins 0 st df.rows
    .ok { total := df.rows.length
          created := countCreated run.1
          failed := countFailed run.1
          errors := run.2.2
          outcomes := run.1
          state := run.2.1 }

/-! ## OTP endpoints (`auth.py`, `send_otp` / `verify_otp`) -/

/-- `frappe.cache()`: a key-value store; TTL expiry is outside the
single-call scope of the claims and is not modelled. -/
abbrev Cache := String → Option String

def cacheSet (c : Cache) (k v : String) : Cache :=
  fun q => if q = k then some v else c q

def cacheDelete (c : Cache) (k : String) : Cache :=
  fun q => if q = k then none else c q

structure AuthResult where
  status : String
  message : String
deriving DecidableEq, Repr

/-- `send_otp` (lines 10-44): cooldown check, cache the OTP under
`otp:{email}` and the cooldown flag, then send the email; `otpVal` is
the random six-digit code, `mailOk` whether `frappe.sendmail` succeeds
(the OTP stays cached either way). -/
def send_otp (c : Cache) (email otpVal : String) (mailOk : Bool) :
    AuthResult × Cache :=
  if (c ("otp_cooldown:" ++ email)).isSome then
    (⟨"error", "OTP already sent. Please wait before requesting again."⟩, c)
  else
    let c1 := cacheSet (cacheSet c ("otp:" ++ email) otpVal)
      ("otp_cooldown:" ++ email) "True"
    if mailOk then (⟨"success", "OTP sent successfully."⟩, c1)
    else (⟨"error", "Error sending OTP"⟩, c1)

/-- `verify_otp` (lines 46-68): look up `otp:{email}`, compare with the
stripped submitted code, and delete the cached value on success. -/
def verify_otp (c : Cache) (email otp : String) : AuthResult × Cache :=
  match c ("otp:" ++ email) with
  | none => (⟨"error", "OTP expired or not found."⟩, c)
  | some cached =>
    if cached ≠ pyStrip otp then (⟨"error", "Invalid OTP."⟩, c)
    else (⟨"success", "OTP verified successfully."⟩,
      cacheDelete c ("otp:" ++ email))

/-! ## Single registration (`faithful.py`, `register_faithful`) -/

/-- JSON request payload for `register_faithful`: string fields. -/
abbrev Payload := List (String × String)

/-- Python truthiness of `payload.get(k)` for a JSON string field. -/
def payloadTruthy (v : Option String) : Bool :=
  match v with
  | none => false
  | some s => s ≠ ""

structure RegState where
  profiles : List Payload
  users : List String
deriving DecidableEq, Repr

structure RegResponse where
  code : Nat
  status : String
  message : String
deriving DecidableEq, Repr

def regFileFields : List String :=
  ["profile_image", "national_id_document", "special_needs_proof"]

/-- `register_faithful` (lines 136-296).  The Faithful Profile is
inserted at line 159, before the `frappe.db.exists("User", user_email)`
check at line 203; the `DuplicateEntryError` raised there is caught and
turned into a 409 response with the inserted profile still in the
store.  Base64 side files are saved only for truthy file fields;
`fileUrl` supplies the stored URL for such a field.  `uins` is the
backend outcome of the User insert. -/
def register_faithful (st : RegState) (payload : Payload)
    (fileUrl : String → String) (uins : Option String) :
    RegResponse × RegState :=
  let email := payload.lookup "email"
  let full_name := payload.lookup "full_name"
  if ¬ payloadTruthy email then
    (⟨400, "error", "Missing required field: email"⟩, st)
  else if ¬ payloadTruthy full_name then
    (⟨400, "error", "Missing required field: full_name"⟩, st)
  else
    let filePayloads := fun f => payload.lookup f
    let payload1 := payload.filter fun p => p.1 ∉ regFileFields
    let doc0 := payload1
    let doc1 :=
      regFileFields.foldl (fun d f =>
        if f = "special_needs_proof" ∧
            ¬ (payload.lookup "special_needs" = some "Yes") then d
        else match filePayloads f with
          | some s => if s ≠ "" then d ++ [(f, fileUrl f)] else d
          | none => d) doc0
    let st1 : RegState := ⟨st.profiles ++ [doc1], st.users⟩
    let user_email := pyLower (pyStrip ((email).getD ""))
    if st.users.contains user_email then
      (⟨409, "error", "Duplicate entry: User with email " ++ user_email ++
        " already exists."⟩, st1)
    else
      match uins with
      | some e =>
        (⟨400, "error", "Failed to register faithful profile and create user. "
          ++ e⟩, st1)
      | none =>
        (⟨201, "success",
          "Faithful profile registered and user account created. Check email to set password."⟩,
          ⟨st1.profiles, st1.users ++ [user_email]⟩)

/-! ## General lemmas -/

/-- Every outcome matches exactly one of the three counters. -/
theorem outcome_partition (os : List Outcome) :
    countCreated os + countDuplicates os + countFailed os = os.length := by
  induction os with
  | nil => rfl
  | cons o os ih =>
    cases o <;>
      simp [countCreated, countDuplicates, countFailed, List.countP_cons] at ih ⊢ <;>
      omega

theorem mosqueGo_length (cols : List String) (ins : Nat → Option String) :
    ∀ (rows : List Row) (k : Nat) (st : MosqueState),
      (mosqueGo cols ins k st rows).1.length = rows.length := by
  intro rows
  induction rows with
  | nil => intro k st; rfl
  | cons r rs ih => intro k st; simp [mosqueGo, ih]

theorem householdGo_length (cols : List String) (ins : Nat → Option String) :
    ∀ (rows : List Row) (k : Nat) (st : HouseholdState),
      (householdGo cols ins k st rows).1.length = rows.length := by
  intro rows
  induction rows with
  | nil => intro k st; rfl
  | cons r rs ih => intro k st; simp [householdGo, ih]

/-- Sanity check: the worked scenario of spec §8 for the mosque import
(an empty-string name cell; see `claim_C3_code_bug_eval` for the
behaviour on a genuinely empty spreadsheet cell). -/
theorem mosque_scenario_blank_string :
    (bulkRegisterMosques
      (some ⟨["mosque_name"],
             [[("mosque_name", .str "Central Mosque")],
              [("mosque_name", .str "Central Mosque")],
              [("mosque_name", .str "")]]⟩)
      (fun _ => none) ⟨[]⟩) =
    .ok { summary := { total := 3, created := 1, duplicates := 1, failed := 1,
                       failed_file_url := some "/private/files/failed_mosques.xlsx" }
          outcomes := [.created, .duplicate "Duplicate mosque name",
                       .failed "Mosque name is required."]
          state := ⟨[[("mosque_name", "Central Mosque")]]⟩
          failed_records := [⟨.str "Central Mosque", "Duplicate mosque name"⟩,
                             ⟨.str "", "Mosque name is required."⟩] } := by
  rfl

/-! ## Claim theorems -/

/-- C1: for every bulk import call (mosque and household) that passes
the call-level checks and runs per-row processing, each input row
produces exactly one outcome accumulated in row order (the outcome list
has one entry per row), and the summary satisfies
`created + duplicates + failed = total`. -/
theorem claim_C1_outcome_partition (file : Option Df) (ins : Nat → Option String)
    (stM : MosqueState) (stH : HouseholdState)
    (resM : MosqueResult) (resH : HouseholdResult) :
    (bulkRegisterMosques file ins stM = .ok resM →
      resM.summary.created + resM.summary.duplicates + resM.summary.failed =
        resM.summary.total ∧
      resM.outcomes.length = resM.summary.total) ∧
    (bulkRegisterHouseholds file ins stH = .ok resH →
      resH.summary.created + resH.summary.duplicates + resH.summary.failed =
        resH.summary.total ∧
      resH.outcomes.length = resH.summary.total) := by
  constructor
  · intro h
    unfold bulkRegisterMosques at h
    split at h
    · exact absurd h (by simp)
    · split at h
      · cases h
        refine ⟨?_, ?_⟩
        · rw [← mosqueGo_length _ ins _ 0 stM]
          exact outcome_partition _
        · simp [mosqueGo_length]
      · exact absurd h (by simp)
  · intro h
    unfold bulkRegisterHouseholds at h
    split at h
    · exact absurd h (by simp)
    · split at h
      · cases h
        refine ⟨?_, ?_⟩
        · rw [← householdGo_length _ ins _ 0 stH]
          exact outcome_partition _
        · simp [householdGo_length]
      · exact absurd h (by simp)

/-- C1 witness: a concrete mosque and household run. -/
theorem claim_C1_outcome_partition_witness :
    ∃ resM resH,
      bulkRegisterMosques (some ⟨["mosque_name"], [[("mosque_name", .str "A")]]⟩)
        (fun _ => none) ⟨[]⟩ = .ok resM ∧
      bulkRegisterHouseholds (some ⟨["household_name"], [[("household_name", .str "B")]]⟩)
        (fun _ => none) ⟨[]⟩ = .ok resH ∧
      resM.summary.created + resM.summary.duplicates + resM.summary.failed =
        resM.summary.total ∧
      resH.summary.created + resH.summary.duplicates + resH.summary.failed =
        resH.summary.total := by
  refine ⟨_, _, rfl, rfl, ?_, ?_⟩
  · exact ((claim_C1_outcome_partition
      (some ⟨["mosque_name"], [[("mosque_name", .str "A")]]⟩) (fun _ => none)
      ⟨[]⟩ ⟨[]⟩ _ ⟨⟨1,1,0,0,none⟩, [.created], ⟨[[("household_name","B")]]⟩, []⟩).1 rfl).1
  · exact ((claim_C1_outcome_partition
      (some ⟨["household_name"], [[("household_name", .str "B")]]⟩) (fun _ => none)
      ⟨[]⟩ ⟨[]⟩ ⟨⟨1,1,0,0,none⟩, [.created], ⟨[[("mosque_name","A")]]⟩, []⟩ _).2 rfl).1

/-- If the (stripped) mosque name of a row is non-empty and already
persisted, the loop body classifies the row as a duplicate and leaves
the store unchanged. -/
theorem mosqueRowStep_dup (cols : List String) (ins : Option String)
    (st : MosqueState) (row : Row)
    (hne : pyStrip (pyStrOpt (rowGet row "mosque_name")) ≠ "")
    (hex : mosqueExists st "mosque_name"
      (pyStrip (pyStrOpt (rowGet row "mosque_name"))) = true) :
    (mosqueRowStep cols ins st row).1 = .duplicate "Duplicate mosque name" ∧
    (mosqueRowStep cols ins st row).2.1 = st := by
  unfold mosqueRowStep
  simp [hne, hex]

theorem householdRowStep_dup (cols : List String) (ins : Option String)
    (st : HouseholdState) (row : Row)
    (hne : pyStrip (pyStrOpt (rowGet row "household_name")) ≠ "")
    (hex : householdExists st
      (pyStrip (pyStrOpt (rowGet row "household_name"))) = true) :
    (householdRowStep cols ins st row).1 = .duplicate "Duplicate household_name" ∧
    (householdRowStep cols ins st row).2.1 = st := by
  unfold householdRowStep
  simp [hne, hex]

theorem faithfulRowStep_dup (pins uins : Option String) (st : FaithfulState)
    (idx : Nat) (row : Row) (s : String)
    (hemail : rowGet row "email" = some (.str s)) (hs : s ≠ "")
    (hname : optTruthy (rowGet row "full_name") = true)
    (hex : st.users.contains (pyLower (pyStrip s)) = true) :
    (faithfulRowStep pins uins st idx row).1 = .duplicate (pyLower (pyStrip s)) ∧
    (faithfulRowStep pins uins st idx row).2.1 = st := by
  unfold faithfulRowStep
  rw [hemail]
  simp only [optTruthy, Cell.truthy, ne_eq, decide_not] at hname
  have hmem : pyLower (pyStrip s) ∈ st.users := by simpa using hex
  simp [optTruthy, Cell.truthy, hs, hname, hmem]

/-- C2: for every bulk import call and every row whose uniqueness key
(mosque name / household name / user email) already matches a persisted
record at the time the row is processed (and which reaches that check:
the key is a non-blank string, and for the faithful import the name
field is also non-blank), the outcome is `Duplicate` and the store is
unchanged by the row. -/
theorem claim_C2_duplicate_key :
    (∀ (cols : List String) (ins : Option String) (st : MosqueState) (row : Row),
      pyStrip (pyStrOpt (rowGet row "mosque_name")) ≠ "" →
      mosqueExists st "mosque_name"
        (pyStrip (pyStrOpt (rowGet row "mosque_name"))) = true →
      (mosqueRowStep cols ins st row).1 = .duplicate "Duplicate mosque name" ∧
      (mosqueRowStep cols ins st row).2.1 = st) ∧
    (∀ (cols : List String) (ins : Option String) (st : HouseholdState) (row : Row),
      pyStrip (pyStrOpt (rowGet row "household_name")) ≠ "" →
      householdExists st (pyStrip (pyStrOpt (rowGet row "household_name"))) = true →
      (householdRowStep cols ins st row).1 = .duplicate "Duplicate household_name" ∧
      (householdRowStep cols ins st row).2.1 = st) ∧
    (∀ (pins uins : Option String) (st : FaithfulState) (idx : Nat) (row : Row)
      (s : String),
      rowGet row "email" = some (.str s) → s ≠ "" →
      optTruthy (rowGet row "full_name") = true →
      st.users.contains (pyLower (pyStrip s)) = true →
      (faithfulRowStep pins uins st idx row).1 = .duplicate (pyLower (pyStrip s)) ∧
      (faithfulRowStep pins uins st idx row).2.1 = st) :=
  ⟨mosqueRowStep_dup, householdRowStep_dup, faithfulRowStep_dup⟩

/-- C2 witness: concrete duplicate rows for the three entities. -/
theorem claim_C2_duplicate_key_witness :
    ((mosqueRowStep ["mosque_name"] none ⟨[[("mosque_name", "Central Mosque")]]⟩
        [("mosque_name", .str "Central Mosque")]).1 =
      .duplicate "Duplicate mosque name") ∧
    ((householdRowStep ["household_name"] none ⟨[[("household_name", "Musa Home")]]⟩
        [("household_name", .str "Musa Home")]).1 =
      .duplicate "Duplicate household_name") ∧
    ((faithfulRowStep none none ⟨[], ["omar@example.com"]⟩ 0
        [("full_name", .str "Omar Ali"), ("email", .str "Omar@Example.com")]).1 =
      .duplicate "omar@example.com") :=
  ⟨(claim_C2_duplicate_key.1 _ _ _ _ (by decide) (by decide)).1,
   (claim_C2_duplicate_key.2.1 _ _ _ _ (by decide) (by decide)).1,
   (claim_C2_duplicate_key.2.2 _ _ _ _ _ "Omar@Example.com" (by decide) (by decide)
      (by decide) (by decide)).1⟩

/-- C3 (code-bug evaluation): a mosque-import row whose `mosque_name`
cell is empty (pandas `NaN`) is not failed: `str(NaN)` is the truthy
string `"nan"`, the required-field check passes, and with an accepting
backend the row is `Created` — a Mosque document with no
`mosque_name` field at all is persisted. -/
theorem claim_C3_code_bug_eval :
    bulkRegisterMosques (some ⟨["mosque_name"], [[("mosque_name", Cell.na)]]⟩)
      (fun _ => none) ⟨[]⟩ =
    .ok { summary := { total := 1, created := 1, duplicates := 0, failed := 0,
                       failed_file_url := none }
          outcomes := [.created]
          state := ⟨[[]]⟩
          failed_records := [] } := rfl

/-- C4 (code-bug evaluation): a faithful bulk upload whose header lacks
the required `email` column is not rejected at call level: the rows are
processed one by one and each is recorded as a per-row `Failed`
outcome, with the call returning a success summary. -/
theorem claim_C4_code_bug_eval :
    bulkUploadFaithfuls (some ⟨["full_name"], [[("full_name", .str "Amina Yusuf")]]⟩)
      (fun _ => none) (fun _ => none) ⟨[], []⟩ =
    .ok { total_uploaded := 1, created := 0, duplicates := 0, failed := 1,
          skipped_duplicates := [],
          failed_rows := [⟨2, none, some (.str "Amina Yusuf"),
            "Missing email or full_name"⟩],
          failed_file_url := none,
          outcomes := [.failed "Missing email or full_name"],
          state := ⟨[], []⟩ } := rfl

/-- C5 (code-bug evaluation): a faithful bulk upload with a failed row
still returns `failed_file_url = none`: the failure report is written
to an anonymous temporary file that is never persisted to storage and
never referenced from the summary. -/
theorem claim_C5_code_bug_eval :
    bulkUploadFaithfuls
      (some ⟨["full_name", "email"],
             [[("full_name", .str "Omar Ali"), ("email", .str "omar@example.com")]]⟩)
      (fun _ => some "Could not insert Faithful Profile") (fun _ => none) ⟨[], []⟩ =
    .ok { total_uploaded := 1, created := 0, duplicates := 0, failed := 1,
          skipped_duplicates := [],
          failed_rows := [⟨2, some (.str "omar@example.com"), some (.str "Omar Ali"),
            "Could not insert Faithful Profile"⟩],
          failed_file_url := none,
          outcomes := [.failed "Could not insert Faithful Profile"],
          state := ⟨[], []⟩ } := rfl

/-- C6 counterexample: in the mosque import the report entries carry no
row number — the same duplicate record produces a byte-identical entry
whether it sits at data row 1 (spreadsheet line 2) or at data row 3
(spreadsheet line 4), so the entry cannot reference the row position. -/
theorem claim_C6_counterexample :
    (bulkRegisterMosques
        (some ⟨["mosque_name"], [[("mosque_name", .str "Central Mosque")]]⟩)
        (fun _ => none) ⟨[[("mosque_name", "Central Mosque")]]⟩).map
      (fun r => r.failed_records) =
      .ok [⟨.str "Central Mosque", "Duplicate mosque name"⟩] ∧
    (bulkRegisterMosques
        (some ⟨["mosque_name"],
               [[("mosque_name", .str "Masjid An-Nur")],
                [("mosque_name", .str "Masjid Taqwa")],
                [("mosque_name", .str "Central Mosque")]]⟩)
        (fun _ => none) ⟨[[("mosque_name", "Central Mosque")]]⟩).map
      (fun r => r.failed_records) =
      .ok [⟨.str "Central Mosque", "Duplicate mosque name"⟩] :=
  ⟨rfl, rfl⟩

/-- C8 counterexample, in three parts.  (1)-(2): the imam import
performs no duplicate detection — re-running the same one-row file
against the state left by a successful first run re-creates the record
(outcome `created`, two copies in the store); no row is ever
reclassified as `Duplicate`.  (3)-(6): the mosque and household imports
fail re-run reclassification for a name cell with surrounding
whitespace — the duplicate check compares the *stripped* name against
the *raw* stored cell value, so a first run that creates
`" Central Mosque "` leaves a record the second run's check does not
match, and the row is re-created instead of reclassified `Duplicate`. -/
theorem claim_C8_counterexample :
    (bulkUploadImams
        (some ⟨["faithful", "mosque"],
               [[("faithful", .str "F-0001"), ("mosque", .str "M-0001")]]⟩)
        (fun _ => none) ⟨[]⟩ =
      .ok { total := 1, created := 1, failed := 0, errors := [],
            outcomes := [.created],
            state := ⟨[[("faithful", .str "F-0001"), ("mosque", .str "M-0001")]]⟩ }) ∧
    (bulkUploadImams
        (some ⟨["faithful", "mosque"],
               [[("faithful", .str "F-0001"), ("mosque", .str "M-0001")]]⟩)
        (fun _ => none)
        ⟨[[("faithful", .str "F-0001"), ("mosque", .str "M-0001")]]⟩ =
      .ok { total := 1, created := 1, failed := 0, errors := [],
            outcomes := [.created],
            state := ⟨[[("faithful", .str "F-0001"), ("mosque", .str "M-0001")],
                       [("faithful", .str "F-0001"), ("mosque", .str "M-0001")]]⟩ }) ∧
    (bulkRegisterMosques
        (some ⟨["mosque_name"], [[("mosque_name", .str " Central Mosque ")]]⟩)
        (fun _ => none) ⟨[]⟩ =
      .ok { summary := ⟨1, 1, 0, 0, none⟩, outcomes := [.created],
            state := ⟨[[("mosque_name", " Central Mosque ")]]⟩,
            failed_records := [] }) ∧
    (bulkRegisterMosques
        (some ⟨["mosque_name"], [[("mosque_name", .str " Central Mosque ")]]⟩)
        (fun _ => none) ⟨[[("mosque_name", " Central Mosque ")]]⟩ =
      .ok { summary := ⟨1, 1, 0, 0, none⟩, outcomes := [.created],
            state := ⟨[[("mosque_name", " Central Mosque ")],
                       [("mosque_name", " Central Mosque ")]]⟩,
            failed_records := [] }) ∧
    (bulkRegisterHouseholds
        (some ⟨["household_name"], [[("household_name", .str " Musa Home ")]]⟩)
        (fun _ => none) ⟨[]⟩ =
      .ok { summary := ⟨1, 1, 0, 0, none⟩, outcomes := [.created],
            state := ⟨[[("household_name", " Musa Home ")]]⟩,
            failed_records := [] }) ∧
    (bulkRegisterHouseholds
        (some ⟨["household_name"], [[("household_name", .str " Musa Home ")]]⟩)
        (fun _ => none) ⟨[[("household_name", " Musa Home ")]]⟩ =
      .ok { summary := ⟨1, 1, 0, 0, none⟩, outcomes := [.created],
            state := ⟨[[("household_name", " Musa Home ")],
                       [("household_name", " Musa Home ")]]⟩,
            failed_records := [] }) :=
  ⟨rfl, rfl, rfl, rfl, rfl, rfl⟩

/-- C9: an OTP is single-use.  A successful `verify_otp` deletes the
cached value under `otp:{email}`, so a second `verify_otp` with the
same email and code (no intervening `send_otp`) returns the
"OTP expired or not found." error. -/
theorem claim_C9_otp_single_use (c : Cache) (email otp : String)
    (h : (verify_otp c email otp).1.status = "success") :
    (verify_otp (verify_otp c email otp).2 email otp).1 =
      ⟨"error", "OTP expired or not found."⟩ := by
  unfold verify_otp at h ⊢
  cases hc : c ("otp:" ++ email) with
  | none => rw [hc] at h; simp at h
  | some cached =>
    rw [hc] at h
    by_cases he : cached = pyStrip otp
    · simp [he, cacheDelete]
    · simp [he] at h

/-- C9 witness: a concrete cache holding a six-digit OTP. -/
theorem claim_C9_otp_single_use_witness :
    ((verify_otp
        (fun k => if k = "otp:user@example.com" then some "123456" else none)
        "user@example.com" "123456").1.status = "success") ∧
    (verify_otp
        (verify_otp
          (fun k => if k = "otp:user@example.com" then some "123456" else none)
          "user@example.com" "123456").2
        "user@example.com" "123456").1 =
      ⟨"error", "OTP expired or not found."⟩ :=
  ⟨rfl, claim_C9_otp_single_use _ "user@example.com" "123456" rfl⟩

/-- C10: `register_faithful` inserts the Faithful Profile before the
duplicate-user check: when a User with the normalised email already
exists, the call returns the 409 duplicate response while the newly
inserted profile remains in the store (and no user is added). -/
theorem claim_C10_register_not_atomic (st : RegState) (payload : Payload)
    (fileUrl : String → String) (uins : Option String) (e : String)
    (hemail : payload.lookup "email" = some e) (he : e ≠ "")
    (hname : payloadTruthy (payload.lookup "full_name") = true)
    (hdup : st.users.contains (pyLower (pyStrip e)) = true) :
    (register_faithful st payload fileUrl uins).1.code = 409 ∧
    (register_faithful st payload fileUrl uins).2.profiles.length =
      st.profiles.length + 1 ∧
    (register_faithful st payload fileUrl uins).2.users = st.users := by
  unfold register_faithful
  rw [hemail]
  have hmem : pyLower (pyStrip e) ∈ st.users := by simpa using hdup
  simp only [payloadTruthy, ne_eq, decide_not] at hname
  simp [payloadTruthy, he, hname, hmem]

/-- C10 witness: registering `" Omar@Example.com "` while
`omar@example.com` is already a User. -/
theorem claim_C10_register_not_atomic_witness :
    (register_faithful ⟨[], ["omar@example.com"]⟩
        [("email", " Omar@Example.com "), ("full_name", "Omar Ali")]
        (fun _ => "/files/x.png") none).1.code = 409 ∧
    (register_faithful ⟨[], ["omar@example.com"]⟩
        [("email", " Omar@Example.com "), ("full_name", "Omar Ali")]
        (fun _ => "/files/x.png") none).2.profiles.length = 0 + 1 :=
  ⟨(claim_C10_register_not_atomic ⟨[], ["omar@example.com"]⟩
      [("email", " Omar@Example.com "), ("full_name", "Omar Ali")]
      (fun _ => "/files/x.png") none " Omar@Example.com "
      (by decide) (by decide) (by decide) (by decide)).1,
   (claim_C10_register_not_atomic ⟨[], ["omar@example.com"]⟩
      [("email", " Omar@Example.com "), ("full_name", "Omar Ali")]
      (fun _ => "/files/x.png") none " Omar@Example.com "
      (by decide) (by decide) (by decide) (by decide)).2.1⟩

/-- C7 counterexample: in the faithful bulk upload, when the profile
insert succeeds and the subsequent user-account creation raises, the
row is recorded `Failed` with the raw backend message, and the inserted
Faithful Profile remains in the store — it is not rolled back, and the
recorded reason is exactly the underlying error with no mention of the
partial creation. -/
theorem claim_C7_counterexample :
    bulkUploadFaithfuls
      (some ⟨["full_name", "email"],
             [[("full_name", .str "Omar Ali"), ("email", .str "omar@example.com")]]⟩)
      (fun _ => none) (fun _ => some "User insert failed") ⟨[], []⟩ =
    .ok { total_uploaded := 1, created := 0, duplicates := 0, failed := 1,
          skipped_duplicates := [],
          failed_rows := [⟨2, some (.str "omar@example.com"), some (.str "Omar Ali"),
            "User insert failed"⟩],
          failed_file_url := none,
          outcomes := [.failed "User insert failed"],
          state := ⟨[[("full_name", .str "Omar Ali"),
                      ("email", .str "omar@example.com")]], []⟩ } := rfl

/-- C7 (amended): for every faithful bulk-import row that passes
validation and the duplicate check, when the profile insert succeeds
and the user-account creation fails with message `uerr`, the row's
outcome is `Failed uerr`, the failure entry carries exactly `uerr` as
its reason, and the inserted profile stays in the store while the user
list is unchanged. -/
theorem claim_C7_amended_orphan_profile (st : FaithfulState) (idx : Nat)
    (row : Row) (s uerr : String)
    (hemail : rowGet row "email" = some (.str s)) (hs : s ≠ "")
    (hname : optTruthy (rowGet row "full_name") = true)
    (hnew : st.users.contains (pyLower (pyStrip s)) = false) :
    (faithfulRowStep none (some uerr) st idx row).1 = .failed uerr ∧
    (faithfulRowStep none (some uerr) st idx row).2.1 =
      ⟨st.profiles ++ [row], st.users⟩ ∧
    (faithfulRowStep none (some uerr) st idx row).2.2.2 =
      some ⟨idx + 2, some (.str s), rowGet row "full_name", uerr⟩ := by
  unfold faithfulRowStep
  rw [hemail]
  simp only [optTruthy, Cell.truthy, ne_eq, decide_not] at hname
  have hmem : pyLower (pyStrip s) ∉ st.users := by simpa using hnew
  simp [optTruthy, Cell.truthy, hs, hname, hmem]

/-- C7 amended witness: a concrete row with a failing user insert. -/
theorem claim_C7_amended_orphan_profile_witness :
    (faithfulRowStep none (some "SMTP refused") ⟨[], []⟩ 4
        [("full_name", .str "Omar Ali"), ("email", .str "omar@example.com")]).1 =
      .failed "SMTP refused" ∧
    (faithfulRowStep none (some "SMTP refused") ⟨[], []⟩ 4
        [("full_name", .str "Omar Ali"), ("email", .str "omar@example.com")]).2.1 =
      ⟨[[("full_name", .str "Omar Ali"), ("email", .str "omar@example.com")]], []⟩ :=
  ⟨(claim_C7_amended_orphan_profile ⟨[], []⟩ 4
      [("full_name", .str "Omar Ali"), ("email", .str "omar@example.com")]
      "omar@example.com" "SMTP refused" (by decide) (by decide) (by decide)
      (by decide)).1,
   (claim_C7_amended_orphan_profile ⟨[], []⟩ 4
      [("full_name", .str "Omar Ali"), ("email", .str "omar@example.com")]
      "omar@example.com" "SMTP refused" (by decide) (by decide) (by decide)
      (by decide)).2.1⟩

/-- Complete case analysis of the faithful loop body: a created row
yields no report entry; a failed row yields exactly one `failed_rows`
entry tagged `idx + 2` whose error matches the outcome; a duplicate row
yields exactly one `skipped_duplicates` entry tagged `idx + 2` whose
email matches the outcome. -/
theorem faithfulRowStep_shape (pins uins : Option String) (st : FaithfulState)
    (idx : Nat) (row : Row) :
    ((faithfulRowStep pins uins st idx row).1 = .created ∧
     (faithfulRowStep pins uins st idx row).2.2.1 = none ∧
     (faithfulRowStep pins uins st idx row).2.2.2 = none) ∨
    (∃ e, (faithfulRowStep pins uins st idx row).1 = .failed e ∧
      (faithfulRowStep pins uins st idx row).2.2.1 = none ∧
      (faithfulRowStep pins uins st idx row).2.2.2 =
        some ⟨idx + 2, rowGet row "email", rowGet row "full_name", e⟩) ∨
    (∃ u, (faithfulRowStep pins uins st idx row).1 = .duplicate u ∧
      (faithfulRowStep pins uins st idx row).2.2.1 =
        some ⟨idx + 2, u, "Duplicate user"⟩ ∧
      (faithfulRowStep pins uins st idx row).2.2.2 = none) := by
  unfold faithfulRowStep
  repeat' split
  all_goals
    first
      | exact Or.inl ⟨rfl, rfl, rfl⟩
      | exact Or.inr (Or.inl ⟨_, rfl, rfl, rfl⟩)
      | exact Or.inr (Or.inr ⟨_, rfl, rfl, rfl⟩)

/-- Every `failed_rows` entry of the faithful loop points back at its
source row: its `row` field is the row's 0-based index plus 2, and the
outcome at that index is the matching `failed`. -/
theorem faithfulGo_failRows (pins uins : Nat → Option String) :
    ∀ (rows : List Row) (k : Nat) (st : FaithfulState) (fr : FailRec),
      fr ∈ (faithfulGo pins uins k st rows).2.2.2 →
      ∃ i, i < rows.length ∧ fr.row = k + i + 2 ∧
        (faithfulGo pins uins k st rows).1[i]? = some (.failed fr.error) := by
  intro rows
  induction rows with
  | nil => intro k st fr h; simp [faithfulGo] at h
  | cons r rs ih =>
    intro k st fr h
    simp only [faithfulGo] at h ⊢
    rcases List.mem_append.mp h with h1 | h2
    · have hsome : (faithfulRowStep (pins k) (uins k) st k r).2.2.2 = some fr := by
        cases hx : (faithfulRowStep (pins k) (uins k) st k r).2.2.2 with
        | none => rw [hx] at h1; simp at h1
        | some v => rw [hx] at h1; simp at h1; rw [h1]
      rcases faithfulRowStep_shape (pins k) (uins k) st k r with
        ⟨_, _, h3⟩ | ⟨e, ho, _, h3⟩ | ⟨u, _, _, h3⟩
      · rw [h3] at hsome; exact absurd hsome (by simp)
      · rw [h3] at hsome
        have hfr := (Option.some.injEq _ _).mp hsome
        refine ⟨0, by simp, ?_, ?_⟩
        · rw [← hfr]
        · simp only [List.getElem?_cons_zero, ho, ← hfr]
      · rw [h3] at hsome; exact absurd hsome (by simp)
    · obtain ⟨i, hi, hrow, hout⟩ := ih (k + 1) _ fr h2
      refine ⟨i + 1, ?_, ?_, ?_⟩
      · simp only [List.length_cons]; omega
      · omega
      · simpa using hout

/-- Every `skipped_duplicates` entry of the faithful loop points back
at its source row in the same way. -/
theorem faithfulGo_skips (pins uins : Nat → Option String) :
    ∀ (rows : List Row) (k : Nat) (st : FaithfulState) (sk : SkipRec),
      sk ∈ (faithfulGo pins uins k st rows).2.2.1 →
      ∃ i, i < rows.length ∧ sk.row = k + i + 2 ∧
        (faithfulGo pins uins k st rows).1[i]? = some (.duplicate sk.email) := by
  intro rows
  induction rows with
  | nil => intro k st sk h; simp [faithfulGo] at h
  | cons r rs ih =>
    intro k st sk h
    simp only [faithfulGo] at h ⊢
    rcases List.mem_append.mp h with h1 | h2
    · have hsome : (faithfulRowStep (pins k) (uins k) st k r).2.2.1 = some sk := by
        cases hx : (faithfulRowStep (pins k) (uins k) st k r).2.2.1 with
        | none => rw [hx] at h1; simp at h1
        | some v => rw [hx] at h1; simp at h1; rw [h1]
      rcases faithfulRowStep_shape (pins k) (uins k) st k r with
        ⟨_, h3, _⟩ | ⟨e, _, h3, _⟩ | ⟨u, ho, h3, _⟩
      · rw [h3] at hsome; exact absurd hsome (by simp)
      · rw [h3] at hsome; exact absurd hsome (by simp)
      · rw [h3] at hsome
        have hsk := (Option.some.injEq _ _).mp hsome
        refine ⟨0, by simp, ?_, ?_⟩
        · rw [← hsk]
        · simp only [List.getElem?_cons_zero, ho, ← hsk]
    · obtain ⟨i, hi, hrow, hout⟩ := ih (k + 1) _ sk h2
      refine ⟨i + 1, ?_, ?_, ?_⟩
      · simp only [List.length_cons]; omega
      · omega
      · simpa using hout

/-- Every `errors` entry of the imam loop points back at its source
row: its `row` field is the 0-based index plus 2 and the outcome there
is the matching `failed`. -/
theorem imamGo_errors (ins : Nat → Option String) :
    ∀ (rows : List Row) (k : Nat) (st : ImamState) (err : ImamErr),
      err ∈ (imamGo ins k st rows).2.2 →
      ∃ i, i < rows.length ∧ err.row = k + i + 2 ∧
        (imamGo ins k st rows).1[i]? = some (.failed err.error) := by
  intro rows
  induction rows with
  | nil => intro k st err h; simp [imamGo] at h
  | cons r rs ih =>
    intro k st err h
    simp only [imamGo] at h ⊢
    rcases List.mem_append.mp h with h1 | h2
    · cases hs : (imamRowStep (ins k) st r).1 with
      | created => rw [hs] at h1; simp at h1
      | duplicate u => rw [hs] at h1; simp at h1
      | failed e =>
        rw [hs] at h1
        simp at h1
        refine ⟨0, by simp, ?_, ?_⟩
        · rw [h1]
        · simp only [List.getElem?_cons_zero, hs, h1]
    · obtain ⟨i, hi, hrow, hout⟩ := ih (k + 1) _ err h2
      refine ⟨i + 1, ?_, ?_, ?_⟩
      · simp only [List.length_cons]; omega
      · omega
      · simpa using hout

/-- C6 (amended): in the faithful and imam bulk imports, every
duplicate or failed entry of the report carries a `row` field equal to
the data row's 0-based index plus 2 — that is, its 1-based position
plus the header-row offset, the spreadsheet line a human would see —
and the outcome at that index matches the entry.  (The mosque and
household reports carry no row number; see `claim_C6_counterexample`.) -/
theorem claim_C6_amended_row_numbering :
    (∀ (file : Option Df) (ins : Nat → Option String) (st : ImamState)
      (res : ImamResult) (err : ImamErr),
      bulkUploadImams file ins st = .ok res → err ∈ res.errors →
      ∃ i, i < res.total ∧ err.row = i + 2 ∧
        res.outcomes[i]? = some (.failed err.error)) ∧
    (∀ (file : Option Df) (pins uins : Nat → Option String) (st : FaithfulState)
      (res : FaithfulResult) (fr : FailRec),
      bulkUploadFaithfuls file pins uins st = .ok res → fr ∈ res.failed_rows →
      ∃ i, i < res.total_uploaded ∧ fr.row = i + 2 ∧
        res.outcomes[i]? = some (.failed fr.error)) ∧
    (∀ (file : Option Df) (pins uins : Nat → Option String) (st : FaithfulState)
      (res : FaithfulResult) (sk : SkipRec),
      bulkUploadFaithfuls file pins uins st = .ok res → sk ∈ res.skipped_duplicates →
      ∃ i, i < res.total_uploaded ∧ sk.row = i + 2 ∧
        res.outcomes[i]? = some (.duplicate sk.email)) := by
  refine ⟨?_, ?_, ?_⟩
  · intro file ins st res err h hmem
    unfold bulkUploadImams at h
    split at h
    · exact absurd h (by simp)
    · cases h
      obtain ⟨i, hi, hrow, hout⟩ := imamGo_errors ins _ 0 st err hmem
      exact ⟨i, hi, by omega, hout⟩
  · intro file pins uins st res fr h hmem
    unfold bulkUploadFaithfuls at h
    split at h
    · exact absurd h (by simp)
    · cases h
      obtain ⟨i, hi, hrow, hout⟩ := faithfulGo_failRows pins uins _ 0 st fr hmem
      exact ⟨i, hi, by omega, hout⟩
  · intro file pins uins st res sk h hmem
    unfold bulkUploadFaithfuls at h
    split at h
    · exact absurd h (by simp)
    · cases h
      obtain ⟨i, hi, hrow, hout⟩ := faithfulGo_skips pins uins _ 0 st sk hmem
      exact ⟨i, hi, by omega, hout⟩

/-- C6 amended witness: a one-row imam file whose insert fails, and a
two-row faithful file with one duplicate and one failed row. -/
theorem claim_C6_amended_row_numbering_witness :
    (∃ i, i < 1 ∧ 2 = i + 2 ∧
      ([Outcome.failed "boom"] : List Outcome)[i]? = some (.failed "boom")) ∧
    (∃ i, i < 2 ∧ 3 = i + 2 ∧
      ([Outcome.duplicate "omar@example.com",
        Outcome.failed "Missing email or full_name"] : List Outcome)[i]? =
        some (.failed "Missing email or full_name")) ∧
    (∃ i, i < 2 ∧ 2 = i + 2 ∧
      ([Outcome.duplicate "omar@example.com",
        Outcome.failed "Missing email or full_name"] : List Outcome)[i]? =
        some (.duplicate "omar@example.com")) :=
  ⟨claim_C6_amended_row_numbering.1
      (some ⟨["faithful"], [[("faithful", .str "F1")]]⟩)
      (fun _ => some "boom") ⟨[]⟩
      { total := 1, created := 0, failed := 1, errors := [⟨2, "boom"⟩],
        outcomes := [.failed "boom"], state := ⟨[]⟩ }
      ⟨2, "boom"⟩ rfl (by simp),
   claim_C6_amended_row_numbering.2.1
      (some ⟨["full_name", "email"],
             [[("full_name", .str "Omar Ali"), ("email", .str "omar@example.com")],
              [("full_name", .str "Fatima")]]⟩)
      (fun _ => none) (fun _ => none) ⟨[], ["omar@example.com"]⟩
      { total_uploaded := 2, created := 0, duplicates := 1, failed := 1,
        skipped_duplicates := [⟨2, "omar@example.com", "Duplicate user"⟩],
        failed_rows := [⟨3, none, some (.str "Fatima"),
          "Missing email or full_name"⟩],
        failed_file_url := none,
        outcomes := [.duplicate "omar@example.com",
          .failed "Missing email or full_name"],
        state := ⟨[], ["omar@example.com"]⟩ }
      ⟨3, none, some (.str "Fatima"), "Missing email or full_name"⟩ rfl (by simp),
   claim_C6_amended_row_numbering.2.2
      (some ⟨["full_name", "email"],
             [[("full_name", .str "Omar Ali"), ("email", .str "omar@example.com")],
              [("full_name", .str "Fatima")]]⟩)
      (fun _ => none) (fun _ => none) ⟨[], ["omar@example.com"]⟩
      { total_uploaded := 2, created := 0, duplicates := 1, failed := 1,
        skipped_duplicates := [⟨2, "omar@example.com", "Duplicate user"⟩],
        failed_rows := [⟨3, none, some (.str "Fatima"),
          "Missing email or full_name"⟩],
        failed_file_url := none,
        outcomes := [.duplicate "omar@example.com",
          .failed "Missing email or full_name"],
        state := ⟨[], ["omar@example.com"]⟩ }
      ⟨2, "omar@example.com", "Duplicate user"⟩ rfl (by simp)⟩

/-- Case analysis of the mosque loop body: a created row appends
exactly its document to the store (and its stripped name was
non-blank); every other branch leaves the store unchanged. -/
theorem mosqueRowStep_shape (cols : List String) (ins : Option String)
    (st : MosqueState) (row : Row) :
    ((mosqueRowStep cols ins st row).1 = .created ∧
     (mosqueRowStep cols ins st row).2.1 =
       ⟨st.mosques ++ [mosqueDocOf cols row]⟩ ∧
     pyStrip (pyStrOpt (rowGet row "mosque_name")) ≠ "") ∨
    ((mosqueRowStep cols ins st row).1 ≠ .created ∧
     (mosqueRowStep cols ins st row).2.1 = st) := by
  unfold mosqueRowStep
  repeat' split
  all_goals
    first
      | exact Or.inl ⟨rfl, rfl, by assumption⟩
      | exact Or.inr ⟨by simp, rfl⟩

/-- A record visible in the store stays visible across one loop step
(steps only append). -/
theorem mosqueExists_step_mono (cols : List String) (ins : Option String)
    (st : MosqueState) (row : Row) (f v : String)
    (h : mosqueExists st f v = true) :
    mosqueExists (mosqueRowStep cols ins st row).2.1 f v = true := by
  rcases mosqueRowStep_shape cols ins st row with ⟨_, hst, _⟩ | ⟨_, hst⟩
  · rw [hst]
    unfold mosqueExists at h ⊢
    simp only [List.any_append, h, Bool.true_or]
  · rw [hst]; exact h

/-- A record visible in the store stays visible to the end of the loop. -/
theorem mosqueExists_go_mono (cols : List String) (ins : Nat → Option String) :
    ∀ (rows : List Row) (k : Nat) (st : MosqueState) (f v : String),
      mosqueExists st f v = true →
      mosqueExists (mosqueGo cols ins k st rows).2.1 f v = true := by
  intro rows
  induction rows with
  | nil => intro k st f v h; exact h
  | cons r rs ih =>
    intro k st f v h
    simp only [mosqueGo]
    exact ih (k + 1) _ f v (mosqueExists_step_mono cols (ins k) st r f v h)

/-- The document built from a row stores the raw `mosque_name` cell. -/
theorem mosqueDocOf_lookup (row : Row) (s : String)
    (hv : rowGet row "mosque_name" = some (.str s)) :
    ∀ cols : List String, "mosque_name" ∈ cols →
      (mosqueDocOf cols row).lookup "mosque_name" = some s := by
  intro cols
  induction cols with
  | nil => intro h; simp at h
  | cons c cs ih =>
    intro hmem
    by_cases hc : c = "mosque_name"
    · subst hc
      simp [mosqueDocOf, List.filterMap_cons, hv, List.lookup]
    · have hcs : "mosque_name" ∈ cs := by
        rcases List.mem_cons.mp hmem with h | h
        · exact absurd h.symm hc
        · exact h
      have hne : ("mosque_name" == c) = false := by
        simp [BEq.beq]
        intro h; exact hc h.symm
      cases hval : rowGet row c with
      | none => simpa [mosqueDocOf, List.filterMap_cons, hval] using ih hcs
      | some cell =>
        cases cell with
        | na => simpa [mosqueDocOf, List.filterMap_cons, hval] using ih hcs
        | str v =>
          simpa [mosqueDocOf, List.filterMap_cons, hval, List.lookup, hne]
            using ih hcs

/-- If row `i` of a mosque run came out `created`, then afterwards the
store answers `true` for its (trimmed) `mosque_name`, which is
non-blank. -/
theorem mosqueGo_created_exists (cols : List String) (ins : Nat → Option String) :
    ∀ (rows : List Row) (k : Nat) (st : MosqueState) (i : Nat) (row : Row)
      (s : String),
      (mosqueGo cols ins k st rows).1[i]? = some .created →
      rows[i]? = some row →
      rowGet row "mosque_name" = some (.str s) → pyStrip s = s →
      "mosque_name" ∈ cols →
      s ≠ "" ∧
        mosqueExists (mosqueGo cols ins k st rows).2.1 "mosque_name" s = true := by
  intro rows
  induction rows with
  | nil => intro k st i row s h1 h2 hv hstrip hc; simp at h2
  | cons r rs ih =>
    intro k st i row s h1 h2 hv hstrip hc
    simp only [mosqueGo] at h1 ⊢
    cases i with
    | zero =>
      simp only [List.getElem?_cons_zero, Option.some.injEq] at h1 h2
      subst h2
      have hkey : pyStrip (pyStrOpt (rowGet r "mosque_name")) = s := by
        rw [hv]; exact hstrip
      rcases mosqueRowStep_shape cols (ins k) st r with ⟨_, hst, hne⟩ | ⟨hno, _⟩
      · refine ⟨?_, ?_⟩
        · rw [hkey] at hne; exact hne
        · apply mosqueExists_go_mono
          rw [hst]
          unfold mosqueExists
          simp only [List.any_append, Bool.or_eq_true]
          right
          simp [mosqueDocOf_lookup r s hv cols hc]
      · exact absurd h1 hno
    | succ j =>
      simp only [List.getElem?_cons_succ] at h1 h2
      exact ih (k + 1) _ j row s h1 h2 hv hstrip hc

/-- If the store already answers `true` for a row's non-blank name when
the loop starts, that row comes out `duplicate`. -/
theorem mosqueGo_dup_of_exists (cols : List String) (ins : Nat → Option String) :
    ∀ (rows : List Row) (k : Nat) (st : MosqueState) (i : Nat) (row : Row),
      rows[i]? = some row →
      pyStrip (pyStrOpt (rowGet row "mosque_name")) ≠ "" →
      mosqueExists st "mosque_name"
        (pyStrip (pyStrOpt (rowGet row "mosque_name"))) = true →
      (mosqueGo cols ins k st rows).1[i]? =
        some (.duplicate "Duplicate mosque name") := by
  intro rows
  induction rows with
  | nil => intro k st i row h; simp at h
  | cons r rs ih =>
    intro k st i row h2 hne hex
    simp only [mosqueGo]
    cases i with
    | zero =>
      simp only [List.getElem?_cons_zero, Option.some.injEq] at h2
      subst h2
      simp only [List.getElem?_cons_zero, Option.some.injEq]
      exact (mosqueRowStep_dup cols (ins k) st r hne hex).1
    | succ j =>
      simp only [List.getElem?_cons_succ] at h2 ⊢
      exact ih (k + 1) _ j row h2 hne
        (mosqueExists_step_mono cols (ins k) st r _ _ hex)

/-- Re-run reclassification for the mosque import: every row a first
run created comes out `Duplicate` on the second run, given trimmed
string name cells (the whitespace proviso is real, see
`claim_C8_counterexample` parts 3-4). -/
theorem mosque_rerun_reclassifies (df : Df)
    (ins1 ins2 : Nat → Option String) (st : MosqueState)
    (res1 res2 : MosqueResult)
    (hrows : ∀ row ∈ df.rows, ∃ s,
      rowGet row "mosque_name" = some (.str s) ∧ pyStrip s = s)
    (h1 : bulkRegisterMosques (some df) ins1 st = .ok res1)
    (h2 : bulkRegisterMosques (some df) ins2 res1.state = .ok res2)
    (i : Nat) (hi : res1.outcomes[i]? = some .created) :
    res2.outcomes[i]? = some (.duplicate "Duplicate mosque name") := by
  simp only [bulkRegisterMosques] at h1 h2
  by_cases hc : "mosque_name" ∈ df.cols
  · rw [if_pos hc] at h1 h2
    cases h1
    cases h2
    simp only at hi ⊢
    have hlen : i < df.rows.length := by
      have hlt := (List.getElem?_eq_some.mp hi).1
      rw [mosqueGo_length df.cols ins1 df.rows 0 st] at hlt
      exact hlt
    have hrowi : df.rows[i]? = some df.rows[i] := List.getElem?_eq_getElem hlen
    have hmem : df.rows[i] ∈ df.rows := List.getElem_mem hlen
    obtain ⟨s, hv, hstrip⟩ := hrows _ hmem
    obtain ⟨hs, hex⟩ :=
      mosqueGo_created_exists df.cols ins1 df.rows 0 st i _ s hi hrowi hv hstrip hc
    have hkey : pyStrip (pyStrOpt (rowGet df.rows[i] "mosque_name")) = s := by
      rw [hv]; exact hstrip
    exact mosqueGo_dup_of_exists df.cols ins2 df.rows 0 _ i _ hrowi
      (by rw [hkey]; exact hs) (by rw [hkey]; exact hex)
  · rw [if_neg hc] at h1
    exact absurd h1 (by simp)

/-- Case analysis of the household loop body, mirroring
`mosqueRowStep_shape`. -/
theorem householdRowStep_shape (cols : List String) (ins : Option String)
    (st : HouseholdState) (row : Row) :
    ((householdRowStep cols ins st row).1 = .created ∧
     (householdRowStep cols ins st row).2.1 =
       ⟨st.households ++ [householdDocOf cols row]⟩ ∧
     pyStrip (pyStrOpt (rowGet row "household_name")) ≠ "") ∨
    ((householdRowStep cols ins st row).1 ≠ .created ∧
     (householdRowStep cols ins st row).2.1 = st) := by
  unfold householdRowStep
  repeat' split
  all_goals
    first
      | exact Or.inl ⟨rfl, rfl, by assumption⟩
      | exact Or.inr ⟨by simp, rfl⟩

theorem householdExists_step_mono (cols : List String) (ins : Option String)
    (st : HouseholdState) (row : Row) (v : String)
    (h : householdExists st v = true) :
    householdExists (householdRowStep cols ins st row).2.1 v = true := by
  rcases householdRowStep_shape cols ins st row with ⟨_, hst, _⟩ | ⟨_, hst⟩
  · rw [hst]
    unfold householdExists at h ⊢
    simp only [List.any_append, h, Bool.true_or]
  · rw [hst]; exact h

theorem householdExists_go_mono (cols : List String) (ins : Nat → Option String) :
    ∀ (rows : List Row) (k : Nat) (st : HouseholdState) (v : String),
      householdExists st v = true →
      householdExists (householdGo cols ins k st rows).2.1 v = true := by
  intro rows
  induction rows with
  | nil => intro k st v h; exact h
  | cons r rs ih =>
    intro k st v h
    simp only [householdGo]
    exact ih (k + 1) _ v (householdExists_step_mono cols (ins k) st r v h)

/-- The document built from a row stores the raw `household_name` cell. -/
theorem householdDocOf_lookup (row : Row) (s : String)
    (hv : rowGet row "household_name" = some (.str s)) :
    ∀ cols : List String, "household_name" ∈ cols →
      (householdDocOf cols row).lookup "household_name" = some s := by
  intro cols
  induction cols with
  | nil => intro h; simp at h
  | cons c cs ih =>
    intro hmem
    by_cases hc : c = "household_name"
    · subst hc
      simp [householdDocOf, List.filterMap_cons, hv, List.lookup]
    · have hcs : "household_name" ∈ cs := by
        rcases List.mem_cons.mp hmem with h | h
        · exact absurd h.symm hc
        · exact h
      have hne : ("household_name" == c) = false := by
        simp [BEq.beq]
        intro h; exact hc h.symm
      cases hval : rowGet row c with
      | none => simpa [householdDocOf, List.filterMap_cons, hval] using ih hcs
      | some cell =>
        cases cell with
        | na => simpa [householdDocOf, List.filterMap_cons, hval] using ih hcs
        | str v =>
          simpa [householdDocOf, List.filterMap_cons, hval, List.lookup, hne]
            using ih hcs

/-- If row `i` of a household run came out `created`, then afterwards
the store answers `true` for its (trimmed) `household_name`, which is
non-blank. -/
theorem householdGo_created_exists (cols : List String)
    (ins : Nat → Option String) :
    ∀ (rows : List Row) (k : Nat) (st : HouseholdState) (i : Nat) (row : Row)
      (s : String),
      (householdGo cols ins k st rows).1[i]? = some .created →
      rows[i]? = some row →
      rowGet row "household_name" = some (.str s) → pyStrip s = s →
      "household_name" ∈ cols →
      s ≠ "" ∧
        householdExists (householdGo cols ins k st rows).2.1 s = true := by
  intro rows
  induction rows with
  | nil => intro k st i row s h1 h2 hv hstrip hc; simp at h2
  | cons r rs ih =>
    intro k st i row s h1 h2 hv hstrip hc
    simp only [householdGo] at h1 ⊢
    cases i with
    | zero =>
      simp only [List.getElem?_cons_zero, Option.some.injEq] at h1 h2
      subst h2
      have hkey : pyStrip (pyStrOpt (rowGet r "household_name")) = s := by
        rw [hv]; exact hstrip
      rcases householdRowStep_shape cols (ins k) st r with ⟨_, hst, hne⟩ | ⟨hno, _⟩
      · refine ⟨?_, ?_⟩
        · rw [hkey] at hne; exact hne
        · apply householdExists_go_mono
          rw [hst]
          unfold householdExists
          simp only [List.any_append, Bool.or_eq_true]
          right
          simp [householdDocOf_lookup r s hv cols hc]
      · exact absurd h1 hno
    | succ j =>
      simp only [List.getElem?_cons_succ] at h1 h2
      exact ih (k + 1) _ j row s h1 h2 hv hstrip hc

/-- If the store already answers `true` for a row's non-blank name when
the loop starts, that household row comes out `duplicate`. -/
theorem householdGo_dup_of_exists (cols : List String)
    (ins : Nat → Option String) :
    ∀ (rows : List Row) (k : Nat) (st : HouseholdState) (i : Nat) (row : Row),
      rows[i]? = some row →
      pyStrip (pyStrOpt (rowGet row "household_name")) ≠ "" →
      householdExists st (pyStrip (pyStrOpt (rowGet row "household_name"))) = true →
      (householdGo cols ins k st rows).1[i]? =
        some (.duplicate "Duplicate household_name") := by
  intro rows
  induction rows with
  | nil => intro k st i row h; simp at h
  | cons r rs ih =>
    intro k st i row h2 hne hex
    simp only [householdGo]
    cases i with
    | zero =>
      simp only [List.getElem?_cons_zero, Option.some.injEq] at h2
      subst h2
      simp only [List.getElem?_cons_zero, Option.some.injEq]
      exact (householdRowStep_dup cols (ins k) st r hne hex).1
    | succ j =>
      simp only [List.getElem?_cons_succ] at h2 ⊢
      exact ih (k + 1) _ j row h2 hne
        (householdExists_step_mono cols (ins k) st r _ hex)

/-- Re-run reclassification for the household import, mirroring
`mosque_rerun_reclassifies`. -/
theorem household_rerun_reclassifies (df : Df)
    (ins1 ins2 : Nat → Option String) (st : HouseholdState)
    (res1 res2 : HouseholdResult)
    (hrows : ∀ row ∈ df.rows, ∃ s,
      rowGet row "household_name" = some (.str s) ∧ pyStrip s = s)
    (h1 : bulkRegisterHouseholds (some df) ins1 st = .ok res1)
    (h2 : bulkRegisterHouseholds (some df) ins2 res1.state = .ok res2)
    (i : Nat) (hi : res1.outcomes[i]? = some .created) :
    res2.outcomes[i]? = some (.duplicate "Duplicate household_name") := by
  simp only [bulkRegisterHouseholds] at h1 h2
  by_cases hc : "household_name" ∈ df.cols
  · rw [if_pos hc] at h1 h2
    cases h1
    cases h2
    simp only at hi ⊢
    have hlen : i < df.rows.length := by
      have hlt := (List.getElem?_eq_some.mp hi).1
      rw [householdGo_length df.cols ins1 df.rows 0 st] at hlt
      exact hlt
    have hrowi : df.rows[i]? = some df.rows[i] := List.getElem?_eq_getElem hlen
    have hmem : df.rows[i] ∈ df.rows := List.getElem_mem hlen
    obtain ⟨s, hv, hstrip⟩ := hrows _ hmem
    obtain ⟨hs, hex⟩ :=
      householdGo_created_exists df.cols ins1 df.rows 0 st i _ s hi hrowi hv
        hstrip hc
    have hkey : pyStrip (pyStrOpt (rowGet df.rows[i] "household_name")) = s := by
      rw [hv]; exact hstrip
    exact householdGo_dup_of_exists df.cols ins2 df.rows 0 _ i _ hrowi
      (by rw [hkey]; exact hs) (by rw [hkey]; exact hex)
  · rw [if_neg hc] at h1
    exact absurd h1 (by simp)

/-- C8 (amended): re-running the same file against the state left by a
first run reclassifies every row the first run created as `Duplicate`
in the mosque and in the household import, provided each name cell is a
string without surrounding whitespace — for a padded name the re-run
row is re-created, because the duplicate check compares the stripped
name against the raw stored cell value, and the imam import has no
duplicate detection at all (both exclusions are exhibited by
`claim_C8_counterexample`). -/
theorem claim_C8_amended_rerun_duplicates :
    (∀ (df : Df) (ins1 ins2 : Nat → Option String) (st : MosqueState)
      (res1 res2 : MosqueResult),
      (∀ row ∈ df.rows, ∃ s,
        rowGet row "mosque_name" = some (.str s) ∧ pyStrip s = s) →
      bulkRegisterMosques (some df) ins1 st = .ok res1 →
      bulkRegisterMosques (some df) ins2 res1.state = .ok res2 →
      ∀ i : Nat, res1.outcomes[i]? = some Outcome.created →
        res2.outcomes[i]? = some (Outcome.duplicate "Duplicate mosque name")) ∧
    (∀ (df : Df) (ins1 ins2 : Nat → Option String) (st : HouseholdState)
      (res1 res2 : HouseholdResult),
      (∀ row ∈ df.rows, ∃ s,
        rowGet row "household_name" = some (.str s) ∧ pyStrip s = s) →
      bulkRegisterHouseholds (some df) ins1 st = .ok res1 →
      bulkRegisterHouseholds (some df) ins2 res1.state = .ok res2 →
      ∀ i : Nat, res1.outcomes[i]? = some Outcome.created →
        res2.outcomes[i]? = some (Outcome.duplicate "Duplicate household_name")) :=
  ⟨mosque_rerun_reclassifies, household_rerun_reclassifies⟩

/-- C8 amended witness: one-row mosque and household files run twice
from an empty store. -/
theorem claim_C8_amended_rerun_duplicates_witness :
    ([Outcome.duplicate "Duplicate mosque name"] : List Outcome)[0]? =
      some (.duplicate "Duplicate mosque name") ∧
    ([Outcome.duplicate "Duplicate household_name"] : List Outcome)[0]? =
      some (.duplicate "Duplicate household_name") :=
  ⟨claim_C8_amended_rerun_duplicates.1
      ⟨["mosque_name"], [[("mosque_name", .str "Central Mosque")]]⟩
      (fun _ => none) (fun _ => none) ⟨[]⟩
      { summary := ⟨1, 1, 0, 0, none⟩, outcomes := [.created],
        state := ⟨[[("mosque_name", "Central Mosque")]]⟩, failed_records := [] }
      { summary := ⟨1, 0, 1, 0, some "/private/files/failed_mosques.xlsx"⟩,
        outcomes := [.duplicate "Duplicate mosque name"],
        state := ⟨[[("mosque_name", "Central Mosque")]]⟩,
        failed_records := [⟨.str "Central Mosque", "Duplicate mosque name"⟩] }
      (by
        intro row hmem
        simp only [List.mem_singleton] at hmem
        subst hmem
        exact ⟨"Central Mosque", rfl, rfl⟩)
      rfl rfl 0 rfl,
   claim_C8_amended_rerun_duplicates.2
      ⟨["household_name"], [[("household_name", .str "Musa Home")]]⟩
      (fun _ => none) (fun _ => none) ⟨[]⟩
      { summary := ⟨1, 1, 0, 0, none⟩, outcomes := [.created],
        state := ⟨[[("household_name", "Musa Home")]]⟩, failed_records := [] }
      { summary := ⟨1, 0, 1, 0, some "/private/files/failed_households.xlsx"⟩,
        outcomes := [.duplicate "Duplicate household_name"],
        state := ⟨[[("household_name", "Musa Home")]]⟩,
        failed_records := [⟨.str "Musa Home", "Duplicate household_name"⟩] }
      (by
        intro row hmem
        simp only [List.mem_singleton] at hmem
        subst hmem
        exact ⟨"Musa Home", rfl, rfl⟩)
      rfl rfl 0 rfl⟩

end FaithfulReg
